import Mathlib

/-!
Verification development for the Illicit-Content-Detection-System
repository.  The definitions below are a shallow embedding of the
Python sources (`nlp_classifier/classifier.py`, `models.py`,
`views.py`, `api_views.py`); the theorems at the end of the file settle
the specification's claims against them.
-/

namespace IllicitDetection

/-! ## Text rule engine (classifier.py, map_detoxify_to_category) -/

/-- The seven Detoxify scores, each on the percentage scale `[0,100]`
(the Python dict keys `Toxicity`, `Severe Toxicity`, `Obscene`,
`Identity Attack`, `Insult`, `Threat`, `Sexual Explicit`).  Scores are
modelled as rationals; the code stores two-decimal percentages and
only ever compares them with integer thresholds. -/
structure DetoxifyScores where
  toxicity : ℚ
  severe_toxicity : ℚ
  obscene : ℚ
  identity_attack : ℚ
  insult : ℚ
  threat : ℚ
  sexual_explicit : ℚ
deriving DecidableEq

/-- The fixed terrorism lexicon of `map_detoxify_to_category`. -/
def terrorism_keywords : List String :=
  ["bomb", "jihad", "terror", "attack", "islamic state"]

/-- Lower-casing of a string character by character, modelling Python
`str.lower()` on the ASCII texts the lexicon check cares about. -/
def lowerStr (s : String) : String :=
  String.mk (s.data.map Char.toLower)

/-- Does `needle` match a prefix of `haystack`?  Helper for the
substring test. -/
def pfxB : List Char → List Char → Bool
  | [], _ => true
  | _ :: _, [] => false
  | a :: as, b :: bs => a == b && pfxB as bs

/-- Does `needle` occur as a contiguous substring of `haystack`?
Models Python's `needle in haystack` on strings. -/
def subB (needle : List Char) : List Char → Bool
  | [] => needle.isEmpty
  | b :: bs => pfxB needle (b :: bs) || subB needle bs

/-- String-level substring containment, models Python `w in text`. -/
def strContains (haystack needle : String) : Bool :=
  subB needle.data haystack.data

/-- Models `any(word in text.lower() for word in terrorism_keywords)`
from `map_detoxify_to_category`. -/
def containsTerrorismKeyword (text : String) : Bool :=
  terrorism_keywords.any (fun w => strContains (lowerStr text) w)

/-- Shallow embedding of `map_detoxify_to_category(scores, text)`
from `classifier.py`: six independent threshold rules append their
category names in code order, and the final `list(set(categories))`
is modelled by `List.dedup` (same members, each name at most once). -/
def map_detoxify_to_category (s : DetoxifyScores) (text : String) : List String :=
  let cats : List String :=
    (if s.threat > 60 ∨ (s.toxicity > 70 ∧ s.severe_toxicity > 40)
      then ["Violence"] else []) ++
    (if s.threat > 70 ∧ s.identity_attack > 40 ∧
        containsTerrorismKeyword text = true
      then ["Terrorism"] else []) ++
    (if (s.insult > 50 ∨ s.identity_attack > 50) ∧
        (s.toxicity > 50 ∧ s.threat > 50)
      then ["Harassment"] else []) ++
    (if s.obscene > 30 ∧ s.sexual_explicit > 20
      then ["Profanity"] else []) ++
    (if s.identity_attack > 50 ∧ s.toxicity > 60
      then ["Hate Speech"] else []) ++
    (if s.insult > 70 ∧ s.toxicity > 50
      then ["Cyberbullying"] else [])
  cats.dedup

/-- Shallow embedding of the category list built by `classify_image`
in `classifier.py`: `"Nudity"` is appended when the NudeNet result is
explicit, and the `"Detected Category → "` entry for the ViT predicted
label is appended unconditionally. -/
def classify_image_categories (is_nude : Bool) (pred_label : String) :
    List String :=
  (if is_nude then ["Nudity"] else []) ++
    ["Detected Category → " ++ pred_label]

/-! ## Video aggregator (classifier.py, analyze_video) -/

/-- One pass of the `analyze_video` frame loop.  A frame is modelled by
the outcome of `classify_image` on it: `some cats` for a successful
classification, `none` for a per-frame exception (logged and skipped
by the `try/except`).  `frame_no` is the counter incremented at the
top of the loop; a frame is processed only when the incremented
counter is divisible by `frame_skip`.  Returns the 1-based indices of
the processed frames (`processed_frames` counts failures too, exactly
as the Python counter does) together with the concatenation
`all_categories` of the successfully classified frames' categories. -/
def videoScan (frame_skip : Nat) : Nat → List (Option (List String)) →
    List Nat × List String
  | _, [] => ([], [])
  | frame_no, f :: rest =>
    let n := frame_no + 1
    if n % frame_skip == 0 then
      let r := videoScan frame_skip n rest
      (n :: r.1, (match f with | some cs => cs | none => []) ++ r.2)
    else
      videoScan frame_skip n rest

/-- Number of occurrences of a category in `all_categories`, modelling
the `Counter` built by `analyze_video`. -/
def countOcc (l : List String) (c : String) : Nat := l.count c

/-- The distinct categories of `all_categories` in first-insertion
order: the key order of the Python `Counter`. -/
def firstKeys (l : List String) : List String :=
  l.foldl (fun acc a => if a ∈ acc then acc else acc ++ [a]) []

/-- Stable insertion into a list sorted by strictly decreasing
occurrence count: the new key goes after every key with a count at
least as large, so keys with equal counts keep their relative
(first-seen) order — the tie-break of `Counter.most_common`. -/
def insertByCount (cnt : String → Nat) (a : String) :
    List String → List String
  | [] => [a]
  | b :: t => if cnt a > cnt b then a :: b :: t else b :: insertByCount cnt a t

/-- Stable sort of the counter keys by descending occurrence count,
modelling the ordering of `Counter.most_common`. -/
def sortByCountDesc (cnt : String → Nat) (keys : List String) : List String :=
  keys.foldl (fun acc a => insertByCount cnt a acc) []

/-- The `most_common(3)` key list of `analyze_video`: distinct
categories in first-seen order, stably sorted by descending count,
truncated to three. -/
def dominantCategories (all_categories : List String) : List String :=
  (sortByCountDesc (countOcc all_categories) (firstKeys all_categories)).take 3

/-- The `video_summary` dict returned by `analyze_video`. -/
structure VideoSummary where
  dominant_categories : List String
  category_counts : List (String × Nat)
  total_frames : Nat
  processed_frames : Nat
deriving DecidableEq

/-- Shallow embedding of `analyze_video(video_path, frame_skip)`:
the video is the list of its frames' per-frame classification
outcomes, in decode order. -/
def analyze_video (frames : List (Option (List String)))
    (frame_skip : Nat) : VideoSummary :=
  let scan := videoScan frame_skip 0 frames
  { dominant_categories := dominantCategories scan.2
    category_counts :=
      (firstKeys scan.2).map (fun c => (c, countOcc scan.2 c))
    total_frames := frames.length
    processed_frames := scan.1.length }

/-! ## Persistence model (models.py) -/

/-- The fields of `ContentSubmission` that the claims are about.  The
free-form JSON payload fields (`classification_result`,
`confidence_scores`) and the timestamp fields are not modelled.
`user` is an `Option` because the column is nullable, though every
creation path in this repository stores a concrete user. -/
structure ContentSubmission where
  user : Option Nat
  content_type : String
  text_content : Option String
  detected_categories : List String
  flagged : Bool
  status : String
  is_from_api : Bool
deriving DecidableEq

/-- A `Notification` row (`models.py`).  `related_submission`
references the submission value the row was created with. -/
structure Notification where
  user : Nat
  title : String
  message : String
  notification_type : String
  related_submission : Option ContentSubmission
deriving DecidableEq

/-- Capitalisation of a single lowercase word, modelling Python
`str.title()` on the one-word decision strings. -/
def pyTitle (s : String) : String :=
  match s.data with
  | [] => ""
  | c :: t => String.mk (Char.toUpper c :: t)

/-- The fields of `AdminReview` used by its `save` method.  `pk` is
`none` before the row is first saved (Django assigns the primary key
on the first save), mirroring the `is_new = self.pk is None` test. -/
structure AdminReview where
  pk : Option Nat
  decision : String
  comments : String
deriving DecidableEq

/-- Shallow embedding of `AdminReview.save` (`models.py`): set the
submission status from the decision, save the submission, and on the
review's first save only (pk still unassigned) create one
`review_complete` notification for the submission's user, referencing
the (already updated) submission.  Returns the updated submission and
the list of notifications created by this save. -/
def adminReview_save (r : AdminReview) (sub : ContentSubmission) :
    ContentSubmission × List Notification :=
  let sub2 :=
    { sub with status := if r.decision = "approved" then "approved" else "rejected" }
  let notifs : List Notification :=
    match r.pk, sub2.user with
    | none, some u =>
        [{ user := u
           title := "Content Review: " ++ pyTitle r.decision
           message := "Your " ++ sub2.content_type ++
             " submission has been " ++ r.decision ++ ". " ++ r.comments
           notification_type := "review_complete"
           related_submission := some sub2 }]
    | _, _ => []
  (sub2, notifs)

/-! ## API key rate limiting (models.py, APIKey) -/

/-- The rate-limiting fields of `APIKey`.  Calendar days are modelled
as natural numbers; `last_used` holds the day of the last increment. -/
structure APIKeyState where
  daily_limit : Nat
  requests_today : Nat
  last_reset : Nat
  last_used : Option Nat
deriving DecidableEq

/-- Shallow embedding of `APIKey.can_make_request`: unconditionally
true on a day other than the last reset day, otherwise the daily
counter must be strictly below the daily limit. -/
def can_make_request (k : APIKeyState) (today : Nat) : Bool :=
  if k.last_reset ≠ today then true
  else decide (k.requests_today < k.daily_limit)

/-- Shallow embedding of `APIKey.increment_usage`: on a new day first
reset the counter to 0 and move the reset date, then increment by one
and stamp the last-used time. -/
def increment_usage (k : APIKeyState) (today : Nat) : APIKeyState :=
  let k2 :=
    if k.last_reset ≠ today then
      { k with requests_today := 0, last_reset := today }
    else k
  { k2 with requests_today := k2.requests_today + 1, last_used := some today }

/-- A freshly created free-tier key (`my_api_keys` creates keys with
`tier='free', daily_limit=50`; `last_reset` is set to the creation
day by `auto_now_add`, the counter starts at 0). -/
def freshAPIKey (d : Nat) : APIKeyState :=
  { daily_limit := 50, requests_today := 0, last_reset := d, last_used := none }

/-- `n` consecutive same-day paired requests (admission check, then
increment on success) against a fresh key, as `authenticate_api_key`
performs them.  The boolean records whether every check so far was
admitted. -/
def admitRun (d : Nat) : Nat → Bool × APIKeyState
  | 0 => (true, freshAPIKey d)
  | n + 1 =>
    let r := admitRun d n
    if can_make_request r.2 d then (r.1, increment_usage r.2 d)
    else (false, r.2)

/-! ## Monthly usage metering and billing (api_views.py, models.py) -/

/-- The counters of a monthly `BillingRecord`.  The charge is a
rational number of dollars; `cost_per_request` defaults to `$0.01`. -/
structure BillingRecordState where
  free_requests_used : Nat
  paid_requests : Nat
  total_requests : Nat
  amount_charged : ℚ
  cost_per_request : ℚ
deriving DecidableEq

/-- Shallow embedding of `BillingRecord.calculate_charges`. -/
def calculate_charges (b : BillingRecordState) : BillingRecordState :=
  if b.paid_requests > 0 then
    { b with amount_charged := b.paid_requests * b.cost_per_request }
  else
    { b with amount_charged := 0 }

/-- The fresh monthly record created by `track_api_usage`'s
`get_or_create` defaults: all counters 0, charge 0. -/
def freshBilling : BillingRecordState :=
  { free_requests_used := 0, paid_requests := 0, total_requests := 0
    amount_charged := 0, cost_per_request := 1 / 100 }

/-- The billing notification created by `track_api_usage` when the
free tier is first exceeded. -/
def freeTierNotification (u : Nat) : Notification :=
  { user := u
    title := "Free Tier Limit Reached"
    message := "You have exceeded your 50 free daily requests. " ++
      "Additional requests will be charged at $0.01 per request."
    notification_type := "billing"
    related_submission := none }

/-- Shallow embedding of one `track_api_usage` call on an existing
record: increment `total_requests`; below 50 free requests used,
consume a free one, otherwise increment `paid_requests`, recompute the
charge, and on the very first paid request emit the one billing
notification.  Returns the updated record and the notifications
created by this call. -/
def track_api_usage (u : Nat) (b : BillingRecordState) :
    BillingRecordState × List Notification :=
  let b1 := { b with total_requests := b.total_requests + 1 }
  if b1.free_requests_used < 50 then
    ({ b1 with free_requests_used := b1.free_requests_used + 1 }, [])
  else
    let b2 := calculate_charges
      { b1 with paid_requests := b1.paid_requests + 1 }
    (b2, if b2.paid_requests = 1 then [freeTierNotification u] else [])

/-- The metering history of a fresh monthly record after `n` metered
requests: final record state plus every notification emitted so far,
in order. -/
def trackRun (u : Nat) : Nat → BillingRecordState × List Notification
  | 0 => (freshBilling, [])
  | n + 1 =>
    let r := trackRun u n
    let s := track_api_usage u r.1
    (s.1, r.2 ++ s.2)

/-! ## API endpoints (api_views.py): effect traces -/

/-- The externally visible effects of the API endpoints' admitted
(successfully authenticated) paths, in program order. -/
inductive APIEffect where
  | admissionCheck
  | incrementDailyUsage
  | meterMonthlyUsage
  | classifyContent
  | createSubmission
  | sendWebhook
  | fetchSubmission
deriving DecidableEq

/-- Effects of `authenticate_api_key` on its admitted path: the
`can_make_request` check, then `increment_usage`. -/
def authenticate_api_key_effects : List APIEffect :=
  [.admissionCheck, .incrementDailyUsage]

/-- Effects of `api_classify_text` on its admitted success path:
authenticate (check + increment), `track_api_usage`, classify, create
the submission, and webhook delivery when the result is flagged and a
webhook URL was supplied. -/
def api_classify_text_effects (webhook : Bool) : List APIEffect :=
  authenticate_api_key_effects ++
    [.meterMonthlyUsage, .classifyContent, .createSubmission] ++
    (if webhook then [.sendWebhook] else [])

/-- Effects of `api_classify_image` on its admitted success path. -/
def api_classify_image_effects (webhook : Bool) : List APIEffect :=
  authenticate_api_key_effects ++
    [.meterMonthlyUsage, .classifyContent, .createSubmission] ++
    (if webhook then [.sendWebhook] else [])

/-- Effects of `api_classify_video` on its admitted success path. -/
def api_classify_video_effects (webhook : Bool) : List APIEffect :=
  authenticate_api_key_effects ++
    [.meterMonthlyUsage, .classifyContent, .createSubmission] ++
    (if webhook then [.sendWebhook] else [])

/-- Effects of `api_get_submission` on its admitted path: it calls
`authenticate_api_key` (admission check plus daily-counter increment)
and then only fetches the submission — it never calls
`track_api_usage`. -/
def api_get_submission_effects : List APIEffect :=
  authenticate_api_key_effects ++ [.fetchSubmission]

/-! ## Submission creation paths (api_views.py and views.py) -/

/-- The `ContentSubmission.objects.create` call of `api_classify_text`. -/
def api_submit_text (userId : Nat) (text : String)
    (text_categories : List String) : ContentSubmission :=
  { user := some userId
    content_type := "text"
    text_content := some text
    detected_categories := text_categories
    flagged := !text_categories.isEmpty
    status := if !text_categories.isEmpty then "pending_review" else "auto_approved"
    is_from_api := true }

/-- The `ContentSubmission.objects.create` call of `api_classify_image`. -/
def api_submit_image (userId : Nat)
    (image_categories : List String) : ContentSubmission :=
  { user := some userId
    content_type := "image"
    text_content := none
    detected_categories := image_categories
    flagged := !image_categories.isEmpty
    status := if !image_categories.isEmpty then "pending_review" else "auto_approved"
    is_from_api := true }

/-- The `ContentSubmission.objects.create` call of `api_classify_video`
(`video_categories` is the summary's dominant-category list). -/
def api_submit_video (userId : Nat)
    (video_categories : List String) : ContentSubmission :=
  { user := some userId
    content_type := "video"
    text_content := none
    detected_categories := video_categories
    flagged := !video_categories.isEmpty
    status := if !video_categories.isEmpty then "pending_review" else "auto_approved"
    is_from_api := true }

/-- The `ContentSubmission.objects.create` call of
`text_classification_view` (`views.py`; the view is `login_required`,
so `request.user` is a concrete user). -/
def web_submit_text (userId : Nat) (text : String)
    (text_categories : List String) : ContentSubmission :=
  { user := some userId
    content_type := "text"
    text_content := some text
    detected_categories := text_categories
    flagged := !text_categories.isEmpty
    status := if !text_categories.isEmpty then "pending_review" else "auto_approved"
    is_from_api := false }

/-- The `ContentSubmission.objects.create` call of
`image_classification_view` (`views.py`). -/
def web_submit_image (userId : Nat)
    (image_categories : List String) : ContentSubmission :=
  { user := some userId
    content_type := "image"
    text_content := none
    detected_categories := image_categories
    flagged := !image_categories.isEmpty
    status := if !image_categories.isEmpty then "pending_review" else "auto_approved"
    is_from_api := false }

/-- The `ContentSubmission.objects.create` call of
`video_classification_view` (`views.py`). -/
def web_submit_video (userId : Nat)
    (video_categories : List String) : ContentSubmission :=
  { user := some userId
    content_type := "video"
    text_content := none
    detected_categories := video_categories
    flagged := !video_categories.isEmpty
    status := if !video_categories.isEmpty then "pending_review" else "auto_approved"
    is_from_api := false }

/-! ## Helper lemmas: substring containment -/

theorem pfxB_append (n : List Char) : ∀ (l post : List Char),
    pfxB n l = true → pfxB n (l ++ post) = true := by
  induction n with
  | nil => intro l post _; simp [pfxB]
  | cons a as ih =>
    intro l post h
    cases l with
    | nil => simp [pfxB] at h
    | cons b bs =>
      simp only [pfxB, Bool.and_eq_true, beq_iff_eq] at h
      simp only [List.cons_append, pfxB, Bool.and_eq_true, beq_iff_eq]
      exact ⟨h.1, ih bs post h.2⟩

theorem subB_nil_needle : ∀ l : List Char, subB [] l = true := by
  intro l
  cases l with
  | nil => simp [subB]
  | cons b bs => simp [subB, pfxB]

theorem subB_append_right (n : List Char) : ∀ (mid post : List Char),
    subB n mid = true → subB n (mid ++ post) = true := by
  intro mid
  induction mid with
  | nil =>
    intro post h
    simp only [subB, List.isEmpty_iff] at h
    subst h
    exact subB_nil_needle post
  | cons m mt ih =>
    intro post h
    simp only [subB, Bool.or_eq_true] at h
    simp only [List.cons_append, subB, Bool.or_eq_true]
    rcases h with h | h
    · exact Or.inl (by
        have := pfxB_append n (m :: mt) post h
        simpa using this)
    · exact Or.inr (ih post h)

theorem subB_append_left (n : List Char) : ∀ (pre l : List Char),
    subB n l = true → subB n (pre ++ l) = true := by
  intro pre
  induction pre with
  | nil => intro l h; simpa using h
  | cons p pt ih =>
    intro l h
    simp only [List.cons_append, subB, Bool.or_eq_true]
    exact Or.inr (ih l h)

theorem containsTerrorismKeyword_of_contains_bomb_threat (t : String)
    (h : ∃ pre post : List Char,
      t.data = pre ++ ("bomb threat".data) ++ post) :
    containsTerrorismKeyword t = true := by
  obtain ⟨pre, post, ht⟩ := h
  have hlow : (lowerStr t).data =
      pre.map Char.toLower ++ ("bomb threat".data) ++ post.map Char.toLower := by
    show t.data.map Char.toLower = _
    rw [ht]
    simp only [List.map_append]
    have hbt : ("bomb threat".data).map Char.toLower = "bomb threat".data := by
      decide
    rw [hbt]
  have hsub : strContains (lowerStr t) "bomb" = true := by
    show subB "bomb".data (lowerStr t).data = true
    rw [hlow, List.append_assoc]
    refine subB_append_left _ _ _ ?_
    refine subB_append_right _ _ _ ?_
    decide
  simp only [containsTerrorismKeyword, List.any_eq_true]
  exact ⟨"bomb", by simp [terrorism_keywords], hsub⟩

/-! ## Helper lemmas: rule-engine membership -/

theorem mem_rule_bucket {p : Prop} [Decidable p] {c a : String} :
    (c ∈ if p then [a] else []) ↔ c = a ∧ p := by
  split <;> simp_all

theorem mem_map_detoxify (s : DetoxifyScores) (t : String) (c : String) :
    c ∈ map_detoxify_to_category s t ↔
      (c = "Violence" ∧
        (s.threat > 60 ∨ (s.toxicity > 70 ∧ s.severe_toxicity > 40))) ∨
      (c = "Terrorism" ∧
        (s.threat > 70 ∧ s.identity_attack > 40 ∧
          containsTerrorismKeyword t = true)) ∨
      (c = "Harassment" ∧
        ((s.insult > 50 ∨ s.identity_attack > 50) ∧
          (s.toxicity > 50 ∧ s.threat > 50))) ∨
      (c = "Profanity" ∧ (s.obscene > 30 ∧ s.sexual_explicit > 20)) ∨
      (c = "Hate Speech" ∧ (s.identity_attack > 50 ∧ s.toxicity > 60)) ∨
      (c = "Cyberbullying" ∧ (s.insult > 70 ∧ s.toxicity > 50)) := by
  simp only [map_detoxify_to_category, List.mem_dedup, List.mem_append,
    mem_rule_bucket]
  simp only [or_assoc]

theorem nodup_map_detoxify (s : DetoxifyScores) (t : String) :
    (map_detoxify_to_category s t).Nodup := by
  simp only [map_detoxify_to_category]
  exact List.nodup_dedup _

/-! ## Helper lemmas: daily quota -/

theorem admitRun_succ (d n : Nat) :
    admitRun d (n + 1) =
      (if can_make_request (admitRun d n).2 d then
        ((admitRun d n).1, increment_usage (admitRun d n).2 d)
      else (false, (admitRun d n).2)) := rfl

theorem admitRun_closed_form (d : Nat) : ∀ n : Nat, n ≤ 50 →
    admitRun d n =
      (true,
        { daily_limit := 50, requests_today := n, last_reset := d
          last_used := if n = 0 then none else some d }) := by
  intro n
  induction n with
  | zero => intro _; simp [admitRun, freshAPIKey]
  | succ m ih =>
    intro h
    have hm : m ≤ 50 := Nat.le_of_succ_le h
    have hlt : m < 50 := Nat.lt_of_succ_le h
    simp only [admitRun, ih hm]
    simp [can_make_request, increment_usage, hlt]

/-! ## Helper lemmas: monthly billing -/

theorem trackRun_free_phase (u : Nat) : ∀ n : Nat, n ≤ 50 →
    trackRun u n =
      ({ free_requests_used := n, paid_requests := 0, total_requests := n
         amount_charged := 0, cost_per_request := 1 / 100 }, []) := by
  intro n
  induction n with
  | zero => intro _; simp [trackRun, freshBilling]
  | succ m ih =>
    intro h
    have hm : m ≤ 50 := Nat.le_of_succ_le h
    have hlt : m < 50 := Nat.lt_of_succ_le h
    simp only [trackRun, ih hm]
    simp [track_api_usage, hlt]

theorem trackRun_succ (u n : Nat) :
    trackRun u (n + 1) =
      ((track_api_usage u (trackRun u n).1).1,
        (trackRun u n).2 ++ (track_api_usage u (trackRun u n).1).2) := rfl

theorem trackRun_paid_phase (u : Nat) : ∀ m : Nat,
    trackRun u (51 + m) =
      ({ free_requests_used := 50, paid_requests := m + 1
         total_requests := 51 + m
         amount_charged := ((m : ℚ) + 1) * (1 / 100)
         cost_per_request := 1 / 100 }, [freeTierNotification u]) := by
  intro m
  induction m with
  | zero =>
    rw [show (51 : Nat) = 50 + 1 from rfl, trackRun_succ,
      trackRun_free_phase u 50 (le_refl 50)]
    simp [track_api_usage, calculate_charges]
  | succ k ih =>
    rw [show 51 + (k + 1) = (51 + k) + 1 from rfl, trackRun_succ, ih]
    simp only [track_api_usage, calculate_charges]
    norm_num

theorem trackRun_total_invariant (u : Nat) : ∀ n : Nat,
    (trackRun u n).1.total_requests =
      (trackRun u n).1.free_requests_used + (trackRun u n).1.paid_requests := by
  intro n
  induction n with
  | zero => simp [trackRun, freshBilling]
  | succ m ih =>
    rw [trackRun_succ]
    simp only [track_api_usage, calculate_charges]
    split
    · simp only []
      omega
    · split <;> simp only [] <;> omega

/-! ## Helper lemmas: video aggregation -/

theorem videoScan_indices (N : Nat) : ∀ (frames : List (Option (List String))) (k : Nat),
    (videoScan N k frames).1 =
      (List.range' (k + 1) frames.length).filter (fun n => n % N == 0) := by
  intro frames
  induction frames with
  | nil => intro k; simp [videoScan]
  | cons f rest ih =>
    intro k
    simp only [videoScan, List.length_cons, List.range'_succ, List.filter_cons]
    by_cases h : (k + 1) % N == 0
    · simp only [h, if_pos, cond_true]
      rw [ih (k + 1)]
    · simp only [h, cond_false]
      exact ih (k + 1)

theorem videoScan_no_frames_no_categories (N : Nat) :
    ∀ (frames : List (Option (List String))) (k : Nat),
    (videoScan N k frames).1 = [] → (videoScan N k frames).2 = [] := by
  intro frames
  induction frames with
  | nil => intro k _; simp [videoScan]
  | cons f rest ih =>
    intro k h
    simp only [videoScan] at h ⊢
    by_cases hp : (k + 1) % N == 0
    · simp [hp] at h
    · simp only [hp, Bool.false_eq_true, if_false] at h ⊢
      exact ih (k + 1) h

theorem mem_insertByCount (cnt : String → Nat) (a x : String) :
    ∀ l : List String, x ∈ insertByCount cnt a l ↔ x = a ∨ x ∈ l := by
  intro l
  induction l with
  | nil => simp [insertByCount]
  | cons b t ih =>
    simp only [insertByCount]
    split
    · simp
    · simp only [List.mem_cons, ih]
      tauto

theorem pairwise_insertByCount (cnt : String → Nat) (a : String) :
    ∀ l : List String, l.Pairwise (fun x y => cnt y ≤ cnt x) →
      (insertByCount cnt a l).Pairwise (fun x y => cnt y ≤ cnt x) := by
  intro l
  induction l with
  | nil => intro _; simp [insertByCount]
  | cons b t ih =>
    intro h
    rw [List.pairwise_cons] at h
    simp only [insertByCount]
    split
    case isTrue hab =>
      rw [List.pairwise_cons]
      refine ⟨?_, List.pairwise_cons.mpr h⟩
      intro x hx
      rcases List.mem_cons.mp hx with rfl | hx
      · omega
      · have := h.1 x hx
        omega
    case isFalse hab =>
      rw [List.pairwise_cons]
      refine ⟨?_, ih h.2⟩
      intro x hx
      rcases (mem_insertByCount cnt a x t).mp hx with rfl | hx
      · omega
      · exact h.1 x hx

theorem pairwise_sortByCountDesc_aux (cnt : String → Nat) :
    ∀ (keys acc : List String),
      acc.Pairwise (fun x y => cnt y ≤ cnt x) →
      (keys.foldl (fun acc a => insertByCount cnt a acc) acc).Pairwise
        (fun x y => cnt y ≤ cnt x) := by
  intro keys
  induction keys with
  | nil => intro acc h; simpa using h
  | cons a t ih =>
    intro acc h
    simp only [List.foldl_cons]
    exact ih _ (pairwise_insertByCount cnt a acc h)

theorem pairwise_dominantCategories (all_categories : List String) :
    (dominantCategories all_categories).Pairwise
      (fun x y => countOcc all_categories y ≤ countOcc all_categories x) := by
  have h := pairwise_sortByCountDesc_aux (countOcc all_categories)
    (firstKeys all_categories) [] (by simp)
  exact h.sublist (List.take_sublist 3 _)

/-! ## Claim theorems -/

/-- C1: for every submission created by any classification path (text,
image, or video; web view or API endpoint), the persisted `flagged`
field equals `true` if and only if the persisted `detected_categories`
list is non-empty. -/
theorem flagged_iff_detected_categories_nonempty
    (u : Nat) (t : String) (cats : List String) :
    ((api_submit_text u t cats).flagged = true ↔
      (api_submit_text u t cats).detected_categories ≠ []) ∧
    ((api_submit_image u cats).flagged = true ↔
      (api_submit_image u cats).detected_categories ≠ []) ∧
    ((api_submit_video u cats).flagged = true ↔
      (api_submit_video u cats).detected_categories ≠ []) ∧
    ((web_submit_text u t cats).flagged = true ↔
      (web_submit_text u t cats).detected_categories ≠ []) ∧
    ((web_submit_image u cats).flagged = true ↔
      (web_submit_image u cats).detected_categories ≠ []) ∧
    ((web_submit_video u cats).flagged = true ↔
      (web_submit_video u cats).detected_categories ≠ []) := by
  cases cats <;>
    simp [api_submit_text, api_submit_image, api_submit_video,
      web_submit_text, web_submit_image, web_submit_video]

/-- C3: every submission created by the classification paths starts in
`auto_approved` exactly when `flagged` is false and in
`pending_review` exactly when `flagged` is true, and no other initial
state is reachable through those paths. -/
theorem initial_state_from_flagged
    (u : Nat) (t : String) (cats : List String) :
    (((api_submit_text u t cats).status = "auto_approved" ↔
        (api_submit_text u t cats).flagged = false) ∧
      ((api_submit_text u t cats).status = "auto_approved" ∨
        (api_submit_text u t cats).status = "pending_review")) ∧
    (((api_submit_image u cats).status = "auto_approved" ↔
        (api_submit_image u cats).flagged = false) ∧
      ((api_submit_image u cats).status = "auto_approved" ∨
        (api_submit_image u cats).status = "pending_review")) ∧
    (((api_submit_video u cats).status = "auto_approved" ↔
        (api_submit_video u cats).flagged = false) ∧
      ((api_submit_video u cats).status = "auto_approved" ∨
        (api_submit_video u cats).status = "pending_review")) ∧
    (((web_submit_text u t cats).status = "auto_approved" ↔
        (web_submit_text u t cats).flagged = false) ∧
      ((web_submit_text u t cats).status = "auto_approved" ∨
        (web_submit_text u t cats).status = "pending_review")) ∧
    (((web_submit_image u cats).status = "auto_approved" ↔
        (web_submit_image u cats).flagged = false) ∧
      ((web_submit_image u cats).status = "auto_approved" ∨
        (web_submit_image u cats).status = "pending_review")) ∧
    (((web_submit_video u cats).status = "auto_approved" ↔
        (web_submit_video u cats).flagged = false) ∧
      ((web_submit_video u cats).status = "auto_approved" ∨
        (web_submit_video u cats).status = "pending_review")) := by
  cases cats <;>
    simp [api_submit_text, api_submit_image, api_submit_video,
      web_submit_text, web_submit_image, web_submit_video]

/-- C2: the text category rule engine returns exactly the union of the
six threshold rules (all strict `>`), each category name appearing at
most once; and scores with `threat = 75` and `identity_attack = 45` on
a text containing "bomb threat" yield both `Violence` and
`Terrorism`. -/
theorem text_rule_engine_spec (s : DetoxifyScores) (t : String) :
    (map_detoxify_to_category s t).Nodup ∧
    (∀ c, c ∈ map_detoxify_to_category s t ↔
      (c = "Violence" ∧
        (s.threat > 60 ∨ (s.toxicity > 70 ∧ s.severe_toxicity > 40))) ∨
      (c = "Terrorism" ∧
        (s.threat > 70 ∧ s.identity_attack > 40 ∧
          containsTerrorismKeyword t = true)) ∨
      (c = "Harassment" ∧
        ((s.insult > 50 ∨ s.identity_attack > 50) ∧
          (s.toxicity > 50 ∧ s.threat > 50))) ∨
      (c = "Profanity" ∧ (s.obscene > 30 ∧ s.sexual_explicit > 20)) ∨
      (c = "Hate Speech" ∧ (s.identity_attack > 50 ∧ s.toxicity > 60)) ∨
      (c = "Cyberbullying" ∧ (s.insult > 70 ∧ s.toxicity > 50))) ∧
    (s.threat = 75 → s.identity_attack = 45 →
      (∃ pre post : List Char, t.data = pre ++ ("bomb threat".data) ++ post) →
      "Violence" ∈ map_detoxify_to_category s t ∧
      "Terrorism" ∈ map_detoxify_to_category s t) := by
  refine ⟨nodup_map_detoxify s t, mem_map_detoxify s t, ?_⟩
  intro ht hi hsub
  have hkw := containsTerrorismKeyword_of_contains_bomb_threat t hsub
  constructor
  · exact (mem_map_detoxify s t "Violence").mpr
      (Or.inl ⟨rfl, Or.inl (by rw [ht]; norm_num)⟩)
  · exact (mem_map_detoxify s t "Terrorism").mpr
      (Or.inr (Or.inl ⟨rfl,
        by rw [ht]; norm_num, by rw [hi]; norm_num, hkw⟩))

/-- Witness for the hypothesis-bearing part of the rule-engine
theorem, at `threat = 75`, `identity_attack = 45` and the text
"a bomb threat". -/
theorem text_rule_engine_spec_witness :
    "Violence" ∈ map_detoxify_to_category
      { toxicity := 0, severe_toxicity := 0, obscene := 0,
        identity_attack := 45, insult := 0, threat := 75,
        sexual_explicit := 0 } "a bomb threat" ∧
    "Terrorism" ∈ map_detoxify_to_category
      { toxicity := 0, severe_toxicity := 0, obscene := 0,
        identity_attack := 45, insult := 0, threat := 75,
        sexual_explicit := 0 } "a bomb threat" :=
  (text_rule_engine_spec
    { toxicity := 0, severe_toxicity := 0, obscene := 0,
      identity_attack := 45, insult := 0, threat := 75,
      sexual_explicit := 0 } "a bomb threat").2.2 rfl rfl
    ⟨"a ".data, [], by decide⟩

/-- C9 counterexample: two classification runs with identical scores
(`threat = 75`, `identity_attack = 45`, all others 0) but different
texts return different category sets, so the returned set is not a
function of the seven scores alone. -/
theorem category_set_depends_on_text :
    map_detoxify_to_category
      { toxicity := 0, severe_toxicity := 0, obscene := 0,
        identity_attack := 45, insult := 0, threat := 75,
        sexual_explicit := 0 } "bomb" ≠
    map_detoxify_to_category
      { toxicity := 0, severe_toxicity := 0, obscene := 0,
        identity_attack := 45, insult := 0, threat := 75,
        sexual_explicit := 0 } "hello" := by
  decide

/-- C9 amended: the returned category set is a strict function of the
seven scores together with the terrorism-lexicon containment test on
the lowercased text — two runs with equal scores whose texts agree on
lexicon containment return the same category set, and nothing else
about the input or any hidden state affects it. -/
theorem category_set_function_of_scores_and_lexicon
    (s : DetoxifyScores) (t1 t2 : String)
    (h : containsTerrorismKeyword t1 = containsTerrorismKeyword t2) :
    map_detoxify_to_category s t1 = map_detoxify_to_category s t2 := by
  simp only [map_detoxify_to_category, h]

/-- Witness for the amended C9 theorem: two distinct texts that both
contain a lexicon term give the same category set. -/
theorem category_set_function_witness :
    map_detoxify_to_category
      { toxicity := 0, severe_toxicity := 0, obscene := 0,
        identity_attack := 45, insult := 0, threat := 75,
        sexual_explicit := 0 } "a bomb" =
    map_detoxify_to_category
      { toxicity := 0, severe_toxicity := 0, obscene := 0,
        identity_attack := 45, insult := 0, threat := 75,
        sexual_explicit := 0 } "the jihad" :=
  category_set_function_of_scores_and_lexicon _ "a bomb" "the jihad" (by decide)

/-- C10: the image classifier's category list always contains the
"Detected Category → " entry for the predicted label, so it is never
empty; consequently every image submission created through the
classification paths is flagged and enters `pending_review` —
`auto_approved` is unreachable for image content. -/
theorem image_submissions_always_flagged
    (is_nude : Bool) (pred_label : String) (u : Nat) :
    classify_image_categories is_nude pred_label ≠ [] ∧
    (api_submit_image u (classify_image_categories is_nude pred_label)).flagged
      = true ∧
    (api_submit_image u (classify_image_categories is_nude pred_label)).status
      = "pending_review" ∧
    (web_submit_image u (classify_image_categories is_nude pred_label)).flagged
      = true ∧
    (web_submit_image u (classify_image_categories is_nude pred_label)).status
      = "pending_review" ∧
    ¬ (api_submit_image u (classify_image_categories is_nude pred_label)).status
      = "auto_approved" ∧
    ¬ (web_submit_image u (classify_image_categories is_nude pred_label)).status
      = "auto_approved" := by
  cases is_nude <;>
    simp [classify_image_categories, api_submit_image, web_submit_image]

/-- C4: on the last-reset day admission succeeds exactly when the
daily counter is below the limit, and admission is unconditional on
any other day; a fresh credential with `daily_limit = 50` admits 50
consecutive same-day check-then-increment requests, denies the 51st on
the same day, and after a date rollover admits again, the counter
being reset to 0 by the next increment (so it reads 1 after it). -/
theorem apikey_daily_quota (k : APIKeyState) (d : Nat) :
    (k.last_reset = d →
      (can_make_request k d = true ↔ k.requests_today < k.daily_limit)) ∧
    (k.last_reset ≠ d → can_make_request k d = true) ∧
    (∀ n, n ≤ 50 →
      (admitRun d n).1 = true ∧ (admitRun d n).2.requests_today = n) ∧
    can_make_request (admitRun d 50).2 d = false ∧
    (admitRun d 51).1 = false ∧
    can_make_request (admitRun d 50).2 (d + 1) = true ∧
    (increment_usage (admitRun d 50).2 (d + 1)).requests_today = 1 ∧
    (increment_usage (admitRun d 50).2 (d + 1)).last_reset = d + 1 := by
  have h50 := admitRun_closed_form d 50 (le_refl 50)
  refine ⟨?_, ?_, ?_, ?_, ?_, ?_, ?_, ?_⟩
  · intro h
    simp [can_make_request, h]
  · intro h
    simp [can_make_request, h]
  · intro n hn
    rw [admitRun_closed_form d n hn]
    exact ⟨rfl, rfl⟩
  · rw [h50]
    simp [can_make_request]
  · rw [show (51 : Nat) = 50 + 1 from rfl, admitRun_succ, h50]
    simp [can_make_request]
  · rw [h50]
    simp [can_make_request]
  · rw [h50]
    simp [increment_usage]
  · rw [h50]
    simp [increment_usage]

/-- Witness for the daily-quota theorem at the fresh credential and
day 0 (and day 1 for the other-day branch). -/
theorem apikey_daily_quota_witness :
    (can_make_request (freshAPIKey 0) 0 = true ↔ 0 < 50) ∧
    can_make_request (freshAPIKey 0) 1 = true ∧
    ((admitRun 0 50).1 = true ∧ (admitRun 0 50).2.requests_today = 50) ∧
    can_make_request (admitRun 0 50).2 0 = false ∧
    (admitRun 0 51).1 = false ∧
    can_make_request (admitRun 0 50).2 1 = true ∧
    (increment_usage (admitRun 0 50).2 1).requests_today = 1 :=
  ⟨(apikey_daily_quota (freshAPIKey 0) 0).1 rfl,
   (apikey_daily_quota (freshAPIKey 0) 1).2.1 (by decide),
   (apikey_daily_quota (freshAPIKey 0) 0).2.2.1 50 (by decide),
   (apikey_daily_quota (freshAPIKey 0) 0).2.2.2.1,
   (apikey_daily_quota (freshAPIKey 0) 0).2.2.2.2.1,
   (apikey_daily_quota (freshAPIKey 0) 0).2.2.2.2.2.1,
   (apikey_daily_quota (freshAPIKey 0) 0).2.2.2.2.2.2.1⟩

/-- C5: starting from a fresh monthly billing record, metered requests
1 through 50 each consume a free request and leave the charge at 0
with no notification; request 51 makes `paid_requests` 1, sets the
charge to $0.01, and emits exactly the one billing notification;
request 52 sets the charge to $0.02 and emits nothing further; and
after every metered request `total_requests` equals
`free_requests_used + paid_requests`. -/
theorem billing_free_tier_boundary (u : Nat) :
    (∀ n, n ≤ 50 →
      (trackRun u n).1.free_requests_used = n ∧
      (trackRun u n).1.paid_requests = 0 ∧
      (trackRun u n).1.amount_charged = 0 ∧
      (trackRun u n).2 = []) ∧
    ((trackRun u 51).1.paid_requests = 1 ∧
      (trackRun u 51).1.amount_charged = 1 / 100 ∧
      (trackRun u 51).2 = [freeTierNotification u] ∧
      (freeTierNotification u).notification_type = "billing") ∧
    ((trackRun u 52).1.amount_charged = 2 / 100 ∧
      (trackRun u 52).2 = (trackRun u 51).2) ∧
    (∀ n, (trackRun u n).1.total_requests =
      (trackRun u n).1.free_requests_used + (trackRun u n).1.paid_requests) := by
  have h51 := trackRun_paid_phase u 0
  have h52 := trackRun_paid_phase u 1
  rw [show 51 + 0 = 51 from rfl] at h51
  rw [show 51 + 1 = 52 from rfl] at h52
  refine ⟨?_, ?_, ?_, trackRun_total_invariant u⟩
  · intro n hn
    rw [trackRun_free_phase u n hn]
    exact ⟨rfl, rfl, rfl, rfl⟩
  · rw [h51]
    refine ⟨rfl, by norm_num, rfl, rfl⟩
  · rw [h51, h52]
    refine ⟨by norm_num, rfl⟩

/-- Witness for the billing theorem: the free-phase conjunct applied
at request 50. -/
theorem billing_free_tier_boundary_witness :
    (trackRun 0 50).1.free_requests_used = 50 ∧
    (trackRun 0 50).1.paid_requests = 0 ∧
    (trackRun 0 50).1.amount_charged = 0 ∧
    (trackRun 0 50).2 = [] :=
  (billing_free_tier_boundary 0).1 50 (by decide)

/-- C6 counterexample: the submission-retrieval endpoint
`api_get_submission` authenticates an API key (its admitted path
performs the admission check and increments the daily counter) yet
runs usage metering zero times, not once — so metering does not run
for every API endpoint that authenticates an API key. -/
theorem get_submission_endpoint_skips_metering :
    api_get_submission_effects.count APIEffect.incrementDailyUsage = 1 ∧
    ¬ api_get_submission_effects.count APIEffect.meterMonthlyUsage = 1 := by
  decide

/-- C6 amended: on every admitted request, each of the three
classification endpoints runs usage metering exactly once (after the
admission check and daily-counter increment), while
`api_get_submission` authenticates and increments the daily counter
but runs usage metering zero times. -/
theorem classification_endpoints_meter_once (w1 w2 w3 : Bool) :
    (api_classify_text_effects w1).count APIEffect.meterMonthlyUsage = 1 ∧
    (api_classify_image_effects w2).count APIEffect.meterMonthlyUsage = 1 ∧
    (api_classify_video_effects w3).count APIEffect.meterMonthlyUsage = 1 ∧
    (api_classify_text_effects w1).count APIEffect.incrementDailyUsage = 1 ∧
    api_get_submission_effects.count APIEffect.incrementDailyUsage = 1 ∧
    api_get_submission_effects.count APIEffect.meterMonthlyUsage = 0 := by
  cases w1 <;> cases w2 <;> cases w3 <;> decide

/-- C7: video aggregation with stride `N ≥ 1` processes exactly the
frames whose 1-based index is divisible by `N` (with `N = 50` on a
120-frame video, exactly frames 50 and 100), the dominant-category
list has length at most 3 and is ranked by descending occurrence
count, and zero processed frames yield an empty dominant-category
list rather than an error. -/
theorem video_aggregation_spec (frames : List (Option (List String)))
    (N : Nat) (_hN : 1 ≤ N) :
    (videoScan N 0 frames).1 =
      (List.range' 1 frames.length).filter (fun n => n % N == 0) ∧
    (analyze_video frames N).dominant_categories.length ≤ 3 ∧
    (analyze_video frames N).dominant_categories.Pairwise
      (fun a b => countOcc (videoScan N 0 frames).2 b ≤
        countOcc (videoScan N 0 frames).2 a) ∧
    ((analyze_video frames N).processed_frames = 0 →
      (analyze_video frames N).dominant_categories = []) ∧
    (frames.length = 120 → N = 50 → (videoScan N 0 frames).1 = [50, 100]) := by
  refine ⟨videoScan_indices N frames 0, ?_, ?_, ?_, ?_⟩
  · simp only [analyze_video, dominantCategories]
    exact List.length_take_le 3 _
  · exact pairwise_dominantCategories _
  · intro h
    simp only [analyze_video, List.length_eq_zero] at h
    have h2 := videoScan_no_frames_no_categories N frames 0 h
    simp [analyze_video, dominantCategories, h2, firstKeys, sortByCountDesc]
  · intro hlen hN50
    rw [videoScan_indices N frames 0, hlen, hN50]
    decide

/-- Witness for the video-aggregation theorem: a 120-frame video at
stride 50 processes exactly frames 50 and 100, and an empty video
yields an empty dominant-category list. -/
theorem video_aggregation_spec_witness :
    (videoScan 50 0 (List.replicate 120 (some ["Nudity"]))).1 = [50, 100] ∧
    (analyze_video ([] : List (Option (List String))) 50).dominant_categories
      = [] ∧
    (analyze_video (List.replicate 120 (some ["Nudity"]))
      50).dominant_categories.length ≤ 3 :=
  ⟨(video_aggregation_spec (List.replicate 120 (some ["Nudity"])) 50
      (by decide)).2.2.2.2 (by decide) rfl,
   (video_aggregation_spec ([] : List (Option (List String))) 50
      (by decide)).2.2.2.1 rfl,
   (video_aggregation_spec (List.replicate 120 (some ["Nudity"])) 50
      (by decide)).2.1⟩

/-- C8: saving the first review (unassigned primary key) with decision
`rejected` on a pending submission that has a submitter sets the
submission's status to `rejected` and creates exactly one notification
referencing that submission; saving again for the same submission
(primary key now assigned, as `review_content` does on an update)
creates no second notification. -/
theorem review_rejection_notifies_once (sub : ContentSubmission)
    (u : Nat) (c : String) (pk : Nat)
    (hu : sub.user = some u) (_hs : sub.status = "pending_review") :
    (adminReview_save ⟨none, "rejected", c⟩ sub).1.status = "rejected" ∧
    (adminReview_save ⟨none, "rejected", c⟩ sub).2.length = 1 ∧
    (∀ n ∈ (adminReview_save ⟨none, "rejected", c⟩ sub).2,
      n.related_submission =
        some (adminReview_save ⟨none, "rejected", c⟩ sub).1 ∧
      n.user = u ∧ n.notification_type = "review_complete") ∧
    (adminReview_save ⟨some pk, "rejected", c⟩
      (adminReview_save ⟨none, "rejected", c⟩ sub).1).2 = [] := by
  refine ⟨?_, ?_, ?_, ?_⟩
  · simp [adminReview_save]
  · simp [adminReview_save, hu]
  · intro n hn
    simp only [adminReview_save, hu] at hn ⊢
    simp at hn
    subst hn
    exact ⟨rfl, rfl, rfl⟩
  · simp [adminReview_save]

/-- Witness for the review theorem at a concrete pending submission. -/
theorem review_rejection_notifies_once_witness :
    (adminReview_save ⟨none, "rejected", "bad"⟩
      (api_submit_text 3 "threatening text" ["Violence"])).1.status
      = "rejected" ∧
    (adminReview_save ⟨none, "rejected", "bad"⟩
      (api_submit_text 3 "threatening text" ["Violence"])).2.length = 1 ∧
    (adminReview_save ⟨some 1, "rejected", "bad"⟩
      (adminReview_save ⟨none, "rejected", "bad"⟩
        (api_submit_text 3 "threatening text" ["Violence"])).1).2 = [] := by
  have h := review_rejection_notifies_once
    (api_submit_text 3 "threatening text" ["Violence"]) 3 "bad" 1
    (by decide) (by decide)
  exact ⟨h.1, h.2.1, h.2.2.2⟩

end IllicitDetection
